/-
  Verification development for the hackathon2_todo task-management service.

  Phase 1 is the in-memory service (src/phase1/src): a TaskRepository dict
  keyed by task id plus a TaskService doing validation and CRUD.
  Phase 2 is the SQL-backed service (src/phase2/backend/app): pydantic
  schemas validate payloads, TaskService/TagService implement CRUD,
  filtering, sorting and pagination, and the FastAPI endpoints add the
  request-level checks.

  Shallow embedding notes:
  - Python str.strip is modelled by pyStrip (ASCII whitespace; structural on
    the character list so that the kernel can evaluate it).
  - Python str.lower is modelled by lowerStr (ASCII lower-casing).
  - datetime.now() and datetime.utcnow() are modelled by passing each clock
    read explicitly as a Nat instant; two separate reads in the source are
    two separate parameters.
  - The Python dict storage of phase 1 is a list of tasks keyed by Task.id;
    dict assignment is storeInsert, dict lookup is find_by_id, del is a
    filter on the key.
  - In phase 1 the repository hands out the stored dict object itself, so a
    field assignment on a fetched task mutates the store at that program
    point; update_task therefore returns the store alongside the result and
    writes each mutation back at the point where the Python assignment runs.
-/
import Mathlib

set_option maxRecDepth 8000

/-- ASCII whitespace test matching the characters Python str.strip removes
from ASCII text. -/
def isPySpace (c : Char) : Bool :=
  c == ' ' || c == '\t' || c == '\n' || c == '\r' || c == '\x0b' || c == '\x0c'

/-- Embedding of Python str.strip (ASCII fragment): drop whitespace from
both ends of the character list. -/
def pyStrip (s : String) : String :=
  ⟨((s.data.dropWhile isPySpace).reverse.dropWhile isPySpace).reverse⟩

/-- Embedding of Python str.lower on one character (ASCII fragment):
upper-case letters move down by 32, everything else is unchanged. -/
def lowerChar (c : Char) : Char :=
  if 65 ≤ c.toNat ∧ c.toNat ≤ 90 then Char.ofNat (c.toNat + 32) else c

/-- Embedding of Python str.lower (ASCII fragment). -/
def lowerStr (s : String) : String :=
  ⟨s.data.map lowerChar⟩

/-- Lexicographic code-point comparison of character lists, the order SQL
and Python use on strings. -/
def charListLt : List Char → List Char → Bool
  | [], [] => false
  | [], _ :: _ => true
  | _ :: _, [] => false
  | a :: as, b :: bs =>
    if a.toNat < b.toNat then true
    else if b.toNat < a.toNat then false
    else charListLt as bs

/-- Lexicographic code-point comparison of strings. -/
def strLt (a b : String) : Bool :=
  charListLt a.data b.data

theorem lowerChar_not_upper (c : Char) :
    ¬ (65 ≤ (lowerChar c).toNat ∧ (lowerChar c).toNat ≤ 90) := by
  unfold lowerChar
  split
  · next h =>
    obtain ⟨h1, h2⟩ := h
    revert h1 h2
    generalize c.toNat = n
    intro h1 h2
    interval_cases n <;> decide
  · next h => exact h

theorem lowerChar_eq_self_of_not_upper (c : Char)
    (h : ¬ (65 ≤ c.toNat ∧ c.toNat ≤ 90)) : lowerChar c = c := by
  unfold lowerChar
  exact if_neg h

theorem lowerChar_idem (c : Char) : lowerChar (lowerChar c) = lowerChar c :=
  lowerChar_eq_self_of_not_upper _ (lowerChar_not_upper c)

theorem lowerStr_idem (s : String) : lowerStr (lowerStr s) = lowerStr s := by
  unfold lowerStr
  congr 1
  show (s.data.map lowerChar).map lowerChar = s.data.map lowerChar
  rw [List.map_map]
  exact List.map_congr_left (fun a _ => lowerChar_idem a)

namespace Phase1

/-- Validation constant from src/phase1/src/models.py. -/
def MAX_TITLE_LENGTH : Nat := 200

/-- Validation constant from src/phase1/src/models.py. -/
def MAX_DESCRIPTION_LENGTH : Nat := 1000

/-- The Task TypedDict of src/phase1/src/models.py; timestamps are modelled
as Nat instants. -/
structure Task where
  id : Nat
  title : String
  description : String
  completed : Bool
  created_at : Nat
  updated_at : Nat
deriving Repr, DecidableEq

/-- The exception taxonomy of src/phase1/src/exceptions.py restricted to the
errors the service operations raise. TaskNotFoundError carries the id. -/
inductive Err where
  | validation (msg : String)
  | notFound (task_id : Nat)
deriving Repr, DecidableEq

/-- TaskRepository state: the storage dict (keyed by Task.id) and the
auto-increment counter, from src/phase1/src/task_repository.py. -/
structure Repo where
  storage : List Task
  next_id : Nat
deriving Repr, DecidableEq

/-- Dict assignment storage[key] = t: replace the entry under the key when
present, append otherwise. Every service call uses key = t.id. -/
def storeInsert (key : Nat) (t : Task) (l : List Task) : List Task :=
  if l.any (fun x => x.id == key) then
    l.map (fun x => if x.id == key then t else x)
  else
    l ++ [t]

/-- TaskRepository.find_by_id: dict lookup by key. -/
def find_by_id (task_id : Nat) (s : Repo) : Option Task :=
  s.storage.find? (fun x => x.id == task_id)

/-- TaskService._validate_title: strip, reject empty, reject length over
MAX_TITLE_LENGTH, return the stripped title. -/
def validate_title (title : String) : Except Err String :=
  let stripped := pyStrip title
  if stripped = "" then
    .error (.validation ("Task title cannot be empty"))
  else if stripped.length > MAX_TITLE_LENGTH then
    .error (.validation ("Task title cannot exceed 200 characters"))
  else
    .ok stripped

/-- TaskService._validate_description: reject length over
MAX_DESCRIPTION_LENGTH, return the description unchanged. -/
def validate_description (description : String) : Except Err String :=
  if description.length > MAX_DESCRIPTION_LENGTH then
    .error (.validation ("Task description cannot exceed 1000 characters"))
  else
    .ok description

/-- TaskService.add_task: validate title then description, generate the id
and one timestamp, build the record with both timestamps equal, store it.
The clock read is the parameter now. -/
def add_task (now : Nat) (title description : String) (s : Repo) :
    Except Err (Task × Repo) :=
  match validate_title title with
  | .error e => .error e
  | .ok vt =>
    match validate_description description with
    | .error e => .error e
    | .ok vd =>
      let task : Task := ⟨s.next_id, vt, vd, false, now, now⟩
      .ok (task, ⟨storeInsert task.id task s.storage, s.next_id + 1⟩)

/-- TaskService.get_task_by_id: repository lookup, TaskNotFoundError with
the id when absent. -/
def get_task_by_id (task_id : Nat) (s : Repo) : Except Err Task :=
  match find_by_id task_id s with
  | some t => .ok t
  | none => .error (.notFound task_id)

/-- TaskService.update_task. The source mutates the stored dict object in
place: the title assignment happens after title validation but before
description validation, so a description failure leaves the store with the
new title and the old updated_at. The returned pair is (result, store after
the call). -/
def update_task (now : Nat) (task_id : Nat)
    (title? description? : Option String) (s : Repo) :
    Except Err Task × Repo :=
  if title? = none ∧ description? = none then
    (.error (.validation
      ("Must provide at least one field to update (title or description)")), s)
  else
    match find_by_id task_id s with
    | none => (.error (.notFound task_id), s)
    | some task0 =>
      let step1 : Except Err (Task × Repo) :=
        match title? with
        | none => .ok (task0, s)
        | some title =>
          (validate_title title).map (fun vt =>
            let t1 := { task0 with title := vt }
            (t1, ⟨storeInsert task_id t1 s.storage, s.next_id⟩))
      match step1 with
      | .error e => (.error e, s)
      | .ok (t1, s1) =>
        match description? with
        | none =>
          let t2 := { t1 with updated_at := now }
          (.ok t2, ⟨storeInsert task_id t2 s1.storage, s1.next_id⟩)
        | some d =>
          match validate_description d with
          | .error e => (.error e, s1)
          | .ok vd =>
            let t2 := { t1 with description := vd, updated_at := now }
            (.ok t2, ⟨storeInsert task_id t2 s1.storage, s1.next_id⟩)

/-- TaskService.delete_task: fetch first (TaskNotFoundError when absent),
then delete from the repository, returning the removed record. -/
def delete_task (task_id : Nat) (s : Repo) : Except Err Task × Repo :=
  match find_by_id task_id s with
  | none => (.error (.notFound task_id), s)
  | some t =>
    (.ok t, ⟨s.storage.filter (fun x => !(x.id == task_id)), s.next_id⟩)

/-- TaskService.complete_task: fetch, set completed to true, refresh
updated_at, store. -/
def complete_task (now : Nat) (task_id : Nat) (s : Repo) :
    Except Err Task × Repo :=
  match find_by_id task_id s with
  | none => (.error (.notFound task_id), s)
  | some t =>
    let t2 := { t with completed := true, updated_at := now }
    (.ok t2, ⟨storeInsert task_id t2 s.storage, s.next_id⟩)

/-- TaskService.uncomplete_task: fetch, set completed to false, refresh
updated_at, store. -/
def uncomplete_task (now : Nat) (task_id : Nat) (s : Repo) :
    Except Err Task × Repo :=
  match find_by_id task_id s with
  | none => (.error (.notFound task_id), s)
  | some t =>
    let t2 := { t with completed := false, updated_at := now }
    (.ok t2, ⟨storeInsert task_id t2 s.storage, s.next_id⟩)

theorem find_by_id_id_eq {task_id : Nat} {s : Repo} {t : Task}
    (h : find_by_id task_id s = some t) : t.id = task_id := by
  have hp := List.find?_some h
  simpa using hp

theorem find?_map_replace (key : Nat) (t' : Task) (h : t'.id = key) :
    ∀ l : List Task, l.any (fun x => x.id == key) = true →
      (l.map (fun x => if x.id == key then t' else x)).find?
        (fun x => x.id == key) = some t' := by
  intro l
  induction l with
  | nil => intro hany; simp at hany
  | cons x xs ih =>
    intro hany
    by_cases hx : (x.id == key) = true
    · rw [List.map_cons, if_pos hx, List.find?_cons_of_pos _ (by simp [h])]
    · have hx' : (x.id == key) = false := by
        simpa using hx
      have hany2 : xs.any (fun x => x.id == key) = true := by
        simp [List.any_cons, hx'] at hany
        simpa using hany
      simp only [List.map_cons, hx', if_neg, Bool.false_eq_true,
        not_false_iff]
      rw [List.find?_cons_of_neg _ (by simpa using hx')]
      exact ih hany2

theorem find?_storeInsert (key : Nat) (t' : Task) (l : List Task)
    (h : t'.id = key) :
    (storeInsert key t' l).find? (fun x => x.id == key) = some t' := by
  unfold storeInsert
  split
  · next hany => exact find?_map_replace key t' h l hany
  · next hany =>
    rw [List.find?_append]
    have hnone : l.find? (fun x => x.id == key) = none := by
      rw [List.find?_eq_none]
      intro a ha
      have := List.any_eq_false.mp (Bool.eq_false_iff.mpr hany) a ha
      simpa using this
    rw [hnone]
    simp [List.find?, h]

theorem find_by_id_after_insert (key : Nat) (t' : Task) (s : Repo)
    (next : Nat) (h : t'.id = key) :
    find_by_id key ⟨storeInsert key t' s.storage, next⟩ = some t' := by
  unfold find_by_id
  exact find?_storeInsert key t' s.storage h

theorem find?_filter_ne (key : Nat) (l : List Task) :
    (l.filter (fun x => !(x.id == key))).find? (fun x => x.id == key)
      = none := by
  rw [List.find?_eq_none]
  intro a ha
  have := (List.mem_filter.mp ha).2
  simp at this
  simp [this]

end Phase1

namespace Phase2

/-- PriorityEnum of src/phase2/backend/app/models/task.py. -/
inductive Priority where
  | high
  | medium
  | low
deriving Repr, DecidableEq

/-- The string value of a PriorityEnum member. -/
def Priority.toStr : Priority → String
  | .high => "high"
  | .medium => "medium"
  | .low => "low"

/-- The Task row of src/phase2/backend/app/models/task.py. The priority
column stores the enum value as a string; datetimes are Nat instants. Tag
associations live in the separate task_tags table. -/
structure Task where
  id : Nat
  title : String
  description : String
  completed : Bool
  priority : String
  due_date : Option Nat
  created_at : Nat
  updated_at : Nat
  user_id : Nat
deriving Repr, DecidableEq

/-- The Tag row of src/phase2/backend/app/models/tag.py. -/
structure Tag where
  id : Nat
  name : String
  color : String
  user_id : Nat
deriving Repr, DecidableEq

/-- Database state: the tasks, tags and task_tags tables plus the two
auto-increment primary-key counters. -/
structure DB where
  tasks : List Task
  tags : List Tag
  task_tags : List (Nat × Nat)
  next_task_id : Nat
  next_tag_id : Nat
deriving Repr, DecidableEq

/-- TaskCreate of src/phase2/backend/app/schemas/task.py after schema
validation (title already stripped by the validator). -/
structure TaskCreate where
  title : String
  description : String := ""
  priority : Priority := .medium
  due_date : Option Nat := none
  tags : List String := []
deriving Repr, DecidableEq

/-- TaskUpdate of src/phase2/backend/app/schemas/task.py; none means the
field was not supplied in the PATCH body. -/
structure TaskUpdate where
  title : Option String := none
  description : Option String := none
  priority : Option Priority := none
  completed : Option Bool := none
  due_date : Option Nat := none
  tags : Option (List String) := none
deriving Repr, DecidableEq

/-- The title pipeline of TaskBase in src/phase2/backend/app/schemas/task.py:
pydantic applies min_length 1 and max_length 200 to the raw string first,
then the field validator rejects whitespace-only titles and returns the
stripped title. -/
def validateTitleCreate (raw : String) : Except String String :=
  if raw.length < 1 then
    .error ("String should have at least 1 character")
  else if raw.length > 200 then
    .error ("String should have at most 200 characters")
  else if pyStrip raw = "" then
    .error ("Title cannot be empty")
  else
    .ok (pyStrip raw)

/-- The name pipeline of TagCreate in src/phase2/backend/app/schemas/task.py:
pydantic length bounds 1..50 on the raw string, then the validator rejects
whitespace-only names and returns the stripped lower-cased name. -/
def tagCreateNormalize (raw : String) : Except String String :=
  if raw.length < 1 then
    .error ("String should have at least 1 character")
  else if raw.length > 50 then
    .error ("String should have at most 50 characters")
  else if pyStrip raw = "" then
    .error ("Tag name cannot be empty")
  else
    .ok (lowerStr (pyStrip raw))

/-- True when the PATCH payload supplies the field at all, set-wise: the
keys of model_dump with exclude_unset. -/
def anyFieldSet (u : TaskUpdate) : Bool :=
  u.title.isSome || u.description.isSome || u.priority.isSome ||
  u.completed.isSome || u.due_date.isSome || u.tags.isSome

/-- The check of the PATCH endpoint in
src/phase2/backend/app/api/v1/endpoints/tasks.py: Python any over the
values of model_dump(exclude_unset=True), i.e. true only when some supplied
value is truthy. A string is truthy when nonempty, a bool when true, an
enum member and a datetime always, a list when nonempty. -/
def anyFieldTruthy (u : TaskUpdate) : Bool :=
  (match u.title with | some s => !(s == "") | none => false) ||
  (match u.description with | some s => !(s == "") | none => false) ||
  (match u.priority with | some _ => true | none => false) ||
  (match u.completed with | some b => b | none => false) ||
  (match u.due_date with | some _ => true | none => false) ||
  (match u.tags with | some l => !l.isEmpty | none => false)

/-- Tag resolution as performed inside TaskService.create_task and
TaskService.update_task: look up a tag of the owner whose lower-cased name
equals the lower-cased requested name; when absent, create one storing the
lower-cased (not stripped) name. The random palette color pick is the
explicit parameter colorPick. -/
def resolveTagTaskPath (user_id : Nat) (name colorPick : String) (db : DB) :
    Tag × DB :=
  match db.tags.find?
      (fun g => lowerStr g.name == lowerStr name && g.user_id == user_id) with
  | some g => (g, db)
  | none =>
    let g : Tag := ⟨db.next_tag_id, lowerStr name, colorPick, user_id⟩
    (g, { db with tags := db.tags ++ [g], next_tag_id := db.next_tag_id + 1 })

/-- TagService.create_tag: same case-insensitive lookup; on miss, store the
lower-cased name with the supplied color or a palette pick. The endpoint
feeds it the TagCreate-normalized name. -/
def create_tag (user_id : Nat) (name : String) (color? : Option String)
    (colorPick : String) (db : DB) : Tag × DB :=
  match db.tags.find?
      (fun g => lowerStr g.name == lowerStr name && g.user_id == user_id) with
  | some g => (g, db)
  | none =>
    let c := match color? with | some c => c | none => colorPick
    let g : Tag := ⟨db.next_tag_id, lowerStr name, c, user_id⟩
    (g, { db with tags := db.tags ++ [g], next_tag_id := db.next_tag_id + 1 })

/-- POST /tags: TagCreate normalization then TagService.create_tag. -/
def createTagEndpoint (user_id : Nat) (raw : String) (color? : Option String)
    (colorPick : String) (db : DB) : Except String (Tag × DB) :=
  (tagCreateNormalize raw).map (fun n => create_tag user_id n color? colorPick db)

/-- TaskService.create_task: insert the task row (created_at and updated_at
are the two separate utcnow default-factory reads tCreated and tUpdated),
then resolve each tag name and insert a task_tags link. -/
def create_task (tCreated tUpdated : Nat) (c : TaskCreate) (user_id : Nat)
    (colorPick : String) (db : DB) : Task × DB :=
  let task : Task :=
    ⟨db.next_task_id, c.title, c.description, false, c.priority.toStr,
      c.due_date, tCreated, tUpdated, user_id⟩
  let db1 : DB := { db with tasks := db.tasks ++ [task],
                            next_task_id := db.next_task_id + 1 }
  let db2 := c.tags.foldl
    (fun acc name =>
      let r := resolveTagTaskPath user_id name colorPick acc
      { r.2 with task_tags := r.2.task_tags ++ [(task.id, r.1.id)] })
    db1
  (task, db2)

/-- TaskService.update_task: fetch the row by id and owner, apply each
supplied field (model_dump excludes tags and unset fields), refresh
updated_at, and when tags is supplied clear the links of the task and
resolve and relink the new names. Returns none when the task is absent. -/
def update_task (now : Nat) (task_id : Nat) (u : TaskUpdate) (user_id : Nat)
    (colorPick : String) (db : DB) : Option (Task × DB) :=
  match db.tasks.find? (fun t => t.id == task_id && t.user_id == user_id) with
  | none => none
  | some task0 =>
    let task1 := match u.title with
      | some v => { task0 with title := v } | none => task0
    let task2 := match u.description with
      | some v => { task1 with description := v } | none => task1
    let task3 := match u.priority with
      | some p => { task2 with priority := p.toStr } | none => task2
    let task4 := match u.completed with
      | some b => { task3 with completed := b } | none => task3
    let task5 := match u.due_date with
      | some d => { task4 with due_date := some d } | none => task4
    let task6 := { task5 with updated_at := now }
    let newTasks := db.tasks.map (fun t => if t.id == task_id then task6 else t)
    let db1 : DB := { db with tasks := newTasks }
    match u.tags with
    | none => some (task6, db1)
    | some names =>
      let newLinks := db1.task_tags.filter (fun l => !(l.1 == task_id))
      let db2 : DB := { db1 with task_tags := newLinks }
      let db3 := names.foldl
        (fun acc name =>
          let r := resolveTagTaskPath user_id name colorPick acc
          { r.2 with task_tags := r.2.task_tags ++ [(task_id, r.1.id)] })
        db2
      some (task6, db3)

/-- One task matches the list_tasks query filters: owner, status, priority,
and (when tag names are supplied) carrying any of the named tags matched
case-insensitively via the task_tags join. -/
def matchesFilter (db : DB) (user_id : Nat) (status : String)
    (priority? : Option Priority) (tags? : Option (List String))
    (t : Task) : Bool :=
  t.user_id == user_id
  && (if status == "active" then t.completed == false
      else if status == "completed" then t.completed == true
      else true)
  && (match priority? with
      | some p => t.priority == p.toStr
      | none => true)
  && (match tags? with
      | some names => db.task_tags.any (fun l =>
          l.1 == t.id && db.tags.any (fun g =>
            g.id == l.2 && names.any (fun n => lowerStr g.name == lowerStr n)))
      | none => true)

/-- Stable insertion into a list ordered by the Bool relation le. -/
def insOrdered (le : Task → Task → Bool) (a : Task) : List Task → List Task
  | [] => [a]
  | b :: l => if le a b then a :: b :: l else b :: insOrdered le a l

/-- Insertion sort by the Bool relation le, modelling the ORDER BY of the
query (order among ties is not fixed by SQL; insertion sort picks one). -/
def sortBy (le : Task → Task → Bool) : List Task → List Task
  | [] => []
  | a :: l => insOrdered le a (sortBy le l)

/-- The ORDER BY branch of TaskService.list_tasks. priority_desc orders by
the raw priority string descending, exactly as Task.priority.desc() does;
the priority_order rank dict in the source is dead code. -/
def applySort (sort_by : String) (ts : List Task) : List Task :=
  if sort_by == "created_asc" then
    sortBy (fun a b => decide (a.created_at ≤ b.created_at)) ts
  else if sort_by == "priority_desc" then
    sortBy (fun a b => !(strLt a.priority b.priority)) ts
  else if sort_by == "due_asc" then
    sortBy (fun a b =>
      match a.due_date, b.due_date with
      | some x, some y => decide (x ≤ y)
      | some _, none => true
      | none, some _ => false
      | none, none => true) ts
  else if sort_by == "title_asc" then
    sortBy (fun a b => !(strLt b.title a.title)) ts
  else
    sortBy (fun a b => decide (b.created_at ≤ a.created_at)) ts

/-- TaskService.list_tasks: filter, count the filtered set (the count
subquery runs before ORDER BY and pagination), sort, then apply OFFSET and
LIMIT. Returns the page and the total. -/
def list_tasks (db : DB) (user_id : Nat) (status : String)
    (priority? : Option Priority) (tags? : Option (List String))
    (sort_by : String) (limit offset : Nat) : List Task × Nat :=
  let filtered := db.tasks.filter (matchesFilter db user_id status priority? tags?)
  (((applySort sort_by filtered).drop offset).take limit, filtered.length)

/-- The FastAPI Query bound on limit: ge 1, le 1000. -/
def limitOk (l : Int) : Bool :=
  1 ≤ l && l ≤ 1000

/-- The FastAPI Query bound on offset: ge 0. -/
def offsetOk (o : Int) : Bool :=
  0 ≤ o

/-- Default limit of the list endpoint. -/
def defaultLimit : Int := 100

/-- Default offset of the list endpoint. -/
def defaultOffset : Int := 0

/-- Error shape of the task endpoints. -/
inductive ApiErr where
  | validation (msg : String)
  | notFound (task_id : Nat)
deriving Repr, DecidableEq

/-- The PATCH /tasks endpoint: the at-least-one-field check (which tests
truthiness of the supplied values) runs first, then the service update; a
missing task maps to the not-found error. -/
def updateEndpoint (now : Nat) (task_id : Nat) (u : TaskUpdate)
    (colorPick : String) (db : DB) : Except ApiErr (Task × DB) :=
  if anyFieldTruthy u = false then
    .error (.validation ("At least one field must be provided"))
  else
    match update_task now task_id u 1 colorPick db with
    | none => .error (.notFound task_id)
    | some r => .ok r

end Phase2

/-- Empty database fixture. -/
def db0 : Phase2.DB := ⟨[], [], [], 1, 1⟩

/-- Fixture for the priority sort: a high task with id 1 and a medium task
with id 2, same owner. -/
def dbC1 : Phase2.DB :=
  ⟨[⟨1, "a", "", false, "high", none, 10, 10, 1⟩,
    ⟨2, "b", "", false, "medium", none, 20, 20, 1⟩], [], [], 3, 1⟩

/-- Fixture holding one task with id 1 for the PATCH endpoint check. -/
def dbC2 : Phase2.DB :=
  ⟨[⟨1, "t", "", false, "medium", none, 0, 0, 1⟩], [], [], 2, 1⟩

/-- Phase-1 fixture holding one task with id 1. -/
def repoC2 : Phase1.Repo := ⟨[⟨1, "t", "", false, 0, 0⟩], 2⟩

/-- Phase-1 fixture holding one task with id 1, title old, description d. -/
def repoC6 : Phase1.Repo := ⟨[⟨1, "old", "d", false, 0, 0⟩], 2⟩

/-- Fixture with four matching tasks, ids 1..4, created at 10..40. -/
def dbC9 : Phase2.DB :=
  ⟨[⟨1, "a", "", false, "medium", none, 10, 10, 1⟩,
    ⟨2, "b", "", false, "medium", none, 20, 20, 1⟩,
    ⟨3, "c", "", false, "medium", none, 30, 30, 1⟩,
    ⟨4, "d", "", false, "medium", none, 40, 40, 1⟩], [], [], 5, 1⟩

/-- Phase-1 fixture for the non-atomic update: one task with id 1. -/
def repoC10 : Phase1.Repo := ⟨[⟨1, "old", "d0", false, 0, 0⟩], 2⟩

/-- A raw title: 200 letters followed by one trailing space (201 raw
characters, 200 after stripping). -/
def t201 : String := ⟨List.replicate 200 'a' ++ [' ']⟩

/-- A description of 1001 characters. -/
def longDesc : String := ⟨List.replicate 1001 'x'⟩

/-- PATCH payload supplying only completed=false. -/
def onlyCompletedFalse : Phase2.TaskUpdate := { completed := some false }

/-- PATCH payload supplying only description equal to the empty string. -/
def onlyEmptyDescription : Phase2.TaskUpdate := { description := some ("") }

/-- TaskCreate payload fixture. -/
def taskCreateC4 : Phase2.TaskCreate := { title := "Buy milk" }

theorem resolve_eq_found {u : Nat} {n c : String} {db : Phase2.DB}
    {g : Phase2.Tag}
    (h : db.tags.find?
        (fun g => lowerStr g.name == lowerStr n && g.user_id == u) = some g) :
    Phase2.resolveTagTaskPath u n c db = (g, db) := by
  unfold Phase2.resolveTagTaskPath
  rw [h]

theorem resolve_eq_missing {u : Nat} {n c : String} {db : Phase2.DB}
    (h : db.tags.find?
        (fun g => lowerStr g.name == lowerStr n && g.user_id == u) = none) :
    Phase2.resolveTagTaskPath u n c db
      = (⟨db.next_tag_id, lowerStr n, c, u⟩,
         { db with tags := db.tags ++ [⟨db.next_tag_id, lowerStr n, c, u⟩],
                   next_tag_id := db.next_tag_id + 1 }) := by
  unfold Phase2.resolveTagTaskPath
  rw [h]

theorem create_tag_eq_found {u : Nat} {n : String} {c? : Option String}
    {cp : String} {db : Phase2.DB} {g : Phase2.Tag}
    (h : db.tags.find?
        (fun g => lowerStr g.name == lowerStr n && g.user_id == u) = some g) :
    Phase2.create_tag u n c? cp db = (g, db) := by
  unfold Phase2.create_tag
  rw [h]

theorem create_tag_eq_missing {u : Nat} {n : String} {c? : Option String}
    {cp : String} {db : Phase2.DB}
    (h : db.tags.find?
        (fun g => lowerStr g.name == lowerStr n && g.user_id == u) = none) :
    Phase2.create_tag u n c? cp db
      = (⟨db.next_tag_id, lowerStr n,
            (match c? with | some c => c | none => cp), u⟩,
         { db with
            tags := db.tags ++ [⟨db.next_tag_id, lowerStr n,
              (match c? with | some c => c | none => cp), u⟩],
            next_tag_id := db.next_tag_id + 1 }) := by
  unfold Phase2.create_tag
  rw [h]

theorem p2_find_map_update (task_id uid : Nat) (t6 : Phase2.Task)
    (h6 : (t6.id == task_id && t6.user_id == uid) = true) :
    ∀ l : List Phase2.Task,
      l.any (fun x => x.id == task_id && x.user_id == uid) = true →
      (l.map (fun x => if x.id == task_id then t6 else x)).find?
        (fun x => x.id == task_id && x.user_id == uid) = some t6 := by
  intro l
  induction l with
  | nil => intro hany; simp at hany
  | cons x xs ih =>
    intro hany
    by_cases hid : (x.id == task_id) = true
    · rw [List.map_cons, if_pos hid]
      exact List.find?_cons_of_pos _ (by simpa using h6)
    · have hpx : (x.id == task_id && x.user_id == uid) = false := by
        simp only [Bool.and_eq_false_iff]
        left
        simpa using hid
      have hany2 :
          xs.any (fun x => x.id == task_id && x.user_id == uid) = true := by
        rw [List.any_cons, hpx] at hany
        simpa using hany
      rw [List.map_cons, if_neg hid,
        List.find?_cons_of_neg _ (by simp [hpx])]
      exact ih hany2

theorem p2_any_of_find? {task_id uid : Nat} {l : List Phase2.Task}
    {t : Phase2.Task}
    (h : l.find? (fun x => x.id == task_id && x.user_id == uid) = some t) :
    l.any (fun x => x.id == task_id && x.user_id == uid) = true := by
  have hm := List.mem_of_find?_eq_some h
  have hp := List.find?_some h
  exact List.any_eq_true.mpr ⟨t, hm, hp⟩

/-- Claim C1: sorting with key priority_desc is claimed to order high before
medium before low by an explicit rank mapping with id-ascending ties. The
code instead orders by the raw priority string descending (the rank dict in
the source is dead code), so on a high task with id 1 and a medium task
with id 2 it returns the medium task first, since the string medium is
lexically greater than the string high. This evaluation pins the divergence
at that concrete input. -/
theorem C1_priority_sort_eval :
    dbC1.tasks.map (fun t => (t.id, t.priority)) = [(1, "high"), (2, "medium")]
      ∧ (Phase2.list_tasks dbC1 1 "all" none none "priority_desc" 100 0).1.map
          Phase2.Task.id = [2, 1] :=
  ⟨rfl, rfl⟩

/-- Claim C2: the PATCH endpoint is claimed to reject only payloads that
supply no field. The code instead tests truthiness of the supplied values,
so a payload supplying only completed=false, or only an empty description,
is rejected with the at-least-one-field error even though a field is
supplied and the task exists. The phase-1 check, which compares against
None, does let an empty description through. -/
theorem C2_falsy_field_eval :
    Phase2.anyFieldSet onlyCompletedFalse = true
      ∧ Phase2.updateEndpoint 5 1 onlyCompletedFalse "#3B82F6" dbC2
          = .error (.validation ("At least one field must be provided"))
      ∧ Phase2.anyFieldSet onlyEmptyDescription = true
      ∧ Phase2.updateEndpoint 5 1 onlyEmptyDescription "#3B82F6" dbC2
          = .error (.validation ("At least one field must be provided"))
      ∧ (Phase1.update_task 5 1 none (some ("")) repoC2).1
          = .ok ⟨1, "t", "", false, 0, 5⟩ :=
  ⟨rfl, rfl, rfl, rfl, rfl⟩

/-- Claim C3 counterexample: a title of raw length 201 whose stripped form
has exactly 200 characters (within the claimed 1..200 window) is rejected
by the phase-2 schema, because pydantic applies the 200-character maximum
to the raw title before the validator strips it. -/
theorem C3_counterexample :
    1 ≤ (pyStrip t201).length ∧ (pyStrip t201).length ≤ 200
      ∧ Phase2.validateTitleCreate t201
          = .error ("String should have at most 200 characters") :=
  ⟨by decide, by decide, rfl⟩

/-- Claim C4 counterexample: in phase 2 the created and updated timestamps
come from two separate clock reads (one default factory per column); when
the clock advances between the reads, the stored task has different created
and updated timestamps at creation. -/
theorem C4_counterexample :
    (Phase2.create_task 0 1 taskCreateC4 1 "#3B82F6" db0).1.created_at
      ≠ (Phase2.create_task 0 1 taskCreateC4 1 "#3B82F6" db0).1.updated_at := by
  show (0 : Nat) ≠ 1
  decide

/-- Claim C5 counterexample: the names Work and space-Work have the same
stripped lower-cased form, yet resolving them in turn through the task
path (which lower-cases but never strips) creates two distinct tag records
for the same owner. -/
theorem C5_counterexample :
    lowerStr (pyStrip ("Work")) = lowerStr (pyStrip (" Work"))
      ∧ (Phase2.resolveTagTaskPath 1 " Work" "#EF4444"
            (Phase2.resolveTagTaskPath 1 "Work" "#3B82F6" db0).2).1.id
          ≠ (Phase2.resolveTagTaskPath 1 "Work" "#3B82F6" db0).1.id := by
  refine ⟨by decide, ?_⟩
  show (2 : Nat) ≠ 1
  decide

/-- Claim C6 counterexample: an update supplying the title with surrounding
whitespace succeeds, but the stored title is the stripped form, not the
supplied value. -/
theorem C6_counterexample :
    (Phase1.update_task 5 1 (some (" X ")) none repoC6).1
        = .ok ⟨1, "X", "d", false, 0, 5⟩
      ∧ "X" ≠ " X " :=
  ⟨rfl, by decide⟩

/-- Claim C9: the reported total is the size of the filtered set before
pagination (so it does not depend on limit or offset), the endpoint bounds
are limit in 1..1000 with default 100 and offset at least 0 with default 0,
and consecutive pages of size l partition the sorted filtered sequence: the
page at offset o followed by the page at offset o+l equals the page of size
2l at offset o. The last conjuncts run the concrete four-task scenario with
limit 2: offsets 0 and 2 return the first-second and third-fourth items of
the sorted sequence, both reporting total 4. -/
theorem C9_pagination :
    (∀ db u st pr tg sb l o l2 o2,
      (Phase2.list_tasks db u st pr tg sb l o).2
        = (Phase2.list_tasks db u st pr tg sb l2 o2).2)
    ∧ (∀ db u st pr tg sb l o,
      (Phase2.list_tasks db u st pr tg sb l o).2
        = (db.tasks.filter (Phase2.matchesFilter db u st pr tg)).length)
    ∧ (∀ db u st pr tg sb l o,
      (Phase2.list_tasks db u st pr tg sb l o).1
          ++ (Phase2.list_tasks db u st pr tg sb l (o + l)).1
        = (Phase2.list_tasks db u st pr tg sb (2 * l) o).1)
    ∧ (Phase2.limitOk Phase2.defaultLimit = true
        ∧ Phase2.offsetOk Phase2.defaultOffset = true
        ∧ (∀ l : Int, Phase2.limitOk l = true ↔ (1 ≤ l ∧ l ≤ 1000))
        ∧ (∀ o : Int, Phase2.offsetOk o = true ↔ 0 ≤ o))
    ∧ ((Phase2.list_tasks dbC9 1 "all" none none "created_desc" 2 0).1.map
          Phase2.Task.id = [4, 3]
        ∧ (Phase2.list_tasks dbC9 1 "all" none none "created_desc" 2 2).1.map
            Phase2.Task.id = [2, 1]
        ∧ (Phase2.list_tasks dbC9 1 "all" none none "created_desc" 1000 0).1.map
            Phase2.Task.id = [4, 3, 2, 1]
        ∧ (Phase2.list_tasks dbC9 1 "all" none none "created_desc" 2 0).2 = 4
        ∧ (Phase2.list_tasks dbC9 1 "all" none none "created_desc" 2 2).2 = 4) := by
  refine ⟨?_, ?_, ?_, ⟨by decide, by decide, ?_, ?_⟩, rfl, rfl, rfl, rfl, rfl⟩
  · intro db u st pr tg sb l o l2 o2
    rfl
  · intro db u st pr tg sb l o
    rfl
  · intro db u st pr tg sb l o
    show (((Phase2.applySort sb _).drop o).take l)
        ++ (((Phase2.applySort sb _).drop (o + l)).take l)
      = ((Phase2.applySort sb _).drop o).take (2 * l)
    generalize Phase2.applySort sb
      (db.tasks.filter (Phase2.matchesFilter db u st pr tg)) = xs
    rw [two_mul, List.take_add, ← List.drop_drop]
  · intro l
    simp [Phase2.limitOk, Bool.and_eq_true, decide_eq_true_eq]
  · intro o
    simp [Phase2.offsetOk, decide_eq_true_eq]

theorem length_pos_of_pyStrip_ne {s : String} (h : pyStrip s ≠ "") :
    1 ≤ s.length := by
  rcases s with ⟨data⟩
  cases data with
  | nil => exact absurd rfl h
  | cons a l =>
    show 1 ≤ (a :: l).length
    simp

theorem validate_title_ok {title : String} (h1 : pyStrip title ≠ "")
    (h2 : (pyStrip title).length ≤ 200) :
    Phase1.validate_title title = .ok (pyStrip title) := by
  have h2' : ¬ (pyStrip title).length > Phase1.MAX_TITLE_LENGTH := by
    simp only [Phase1.MAX_TITLE_LENGTH]
    omega
  simp only [Phase1.validate_title, if_neg h1, if_neg h2']

theorem validate_title_err {title : String}
    (h : pyStrip title = "" ∨ (pyStrip title).length > 200) :
    ∃ msg, Phase1.validate_title title = .error (.validation msg) := by
  by_cases he : pyStrip title = ""
  · exact ⟨"Task title cannot be empty",
      by simp only [Phase1.validate_title, if_pos he]⟩
  · have hl : (pyStrip title).length > 200 := h.resolve_left he
    have hl' : (pyStrip title).length > Phase1.MAX_TITLE_LENGTH := by
      simp only [Phase1.MAX_TITLE_LENGTH]
      omega
    exact ⟨"Task title cannot exceed 200 characters",
      by simp only [Phase1.validate_title, if_neg he, if_pos hl']⟩

theorem validate_description_ok {d : String} (hd : d.length ≤ 1000) :
    Phase1.validate_description d = .ok d := by
  have hd' : ¬ d.length > Phase1.MAX_DESCRIPTION_LENGTH := by
    simp only [Phase1.MAX_DESCRIPTION_LENGTH]
    omega
  simp only [Phase1.validate_description, if_neg hd']

theorem add_task_ok (now : Nat) (title d : String) (s : Phase1.Repo)
    (h1 : pyStrip title ≠ "") (h2 : (pyStrip title).length ≤ 200)
    (hd : d.length ≤ 1000) :
    Phase1.add_task now title d s
      = .ok (⟨s.next_id, pyStrip title, d, false, now, now⟩,
             ⟨Phase1.storeInsert s.next_id
                ⟨s.next_id, pyStrip title, d, false, now, now⟩ s.storage,
              s.next_id + 1⟩) := by
  simp only [Phase1.add_task, validate_title_ok h1 h2,
    validate_description_ok hd]

/-- Claim C3 amended: in phase 1 the claim holds exactly: for every title
whose stripped form has 1 to 200 characters, create succeeds (given a valid
description) and stores the stripped title, and a title stripping to empty
or beyond 200 characters fails with ValidationError. In phase 2 the
200-character maximum is applied to the raw title before stripping: a raw
title longer than 200 characters is rejected outright, and otherwise
creation succeeds exactly when the stripped form is nonempty, storing the
stripped title. -/
theorem C3_title_validation (t : String) :
    (pyStrip t ≠ "" → (pyStrip t).length ≤ 200 →
      ∀ now d s, d.length ≤ 1000 →
        Phase1.add_task now t d s
          = .ok (⟨s.next_id, pyStrip t, d, false, now, now⟩,
                 ⟨Phase1.storeInsert s.next_id
                    ⟨s.next_id, pyStrip t, d, false, now, now⟩ s.storage,
                  s.next_id + 1⟩))
    ∧ ((pyStrip t = "" ∨ (pyStrip t).length > 200) →
      ∀ now d s, ∃ msg,
        Phase1.add_task now t d s = .error (.validation msg))
    ∧ (t.length ≤ 200 → pyStrip t ≠ "" →
      Phase2.validateTitleCreate t = .ok (pyStrip t))
    ∧ (t.length ≤ 200 → pyStrip t = "" →
      ∃ msg, Phase2.validateTitleCreate t = .error msg)
    ∧ (t.length > 200 → Phase2.validateTitleCreate t
        = .error ("String should have at most 200 characters")) := by
  refine ⟨?_, ?_, ?_, ?_, ?_⟩
  · intro h1 h2 now d s hd
    exact add_task_ok now t d s h1 h2 hd
  · intro h now d s
    obtain ⟨msg, hv⟩ := validate_title_err h
    exact ⟨msg, by simp only [Phase1.add_task, hv]⟩
  · intro hlen hne
    have hp : ¬ t.length < 1 := by
      have := length_pos_of_pyStrip_ne hne
      omega
    have hq : ¬ t.length > 200 := by omega
    simp only [Phase2.validateTitleCreate, if_neg hp, if_neg hq, if_neg hne]
  · intro hlen he
    by_cases hp : t.length < 1
    · exact ⟨"String should have at least 1 character",
        by simp only [Phase2.validateTitleCreate, if_pos hp]⟩
    · have hq : ¬ t.length > 200 := by omega
      exact ⟨"Title cannot be empty",
        by simp only [Phase2.validateTitleCreate, if_neg hp, if_neg hq,
          if_pos he]⟩
  · intro hlen
    have hp : ¬ t.length < 1 := by omega
    simp only [Phase2.validateTitleCreate, if_neg hp, if_pos hlen]

/-- Witness for C3 at concrete titles: phase-1 creation of space-hi-space
stores the stripped title hi, the phase-2 schema accepts it with the same
stripped result, and the phase-2 schema rejects a whitespace-only title of
raw length at most 200. -/
theorem C3_title_validation_witness :
    Phase1.add_task 3 (" hi ") ("d") ⟨[], 1⟩
        = .ok (⟨1, "hi", "d", false, 3, 3⟩,
               ⟨[⟨1, "hi", "d", false, 3, 3⟩], 2⟩)
      ∧ Phase2.validateTitleCreate (" hi ") = .ok ("hi")
      ∧ (∃ msg, Phase2.validateTitleCreate ("   ") = .error msg) := by
  refine ⟨?_, ?_, ?_⟩
  · exact (C3_title_validation (" hi ")).1 (by decide) (by decide) 3 ("d")
      ⟨[], 1⟩ (by decide)
  · exact (C3_title_validation (" hi ")).2.2.1 (by decide) (by decide)
  · exact (C3_title_validation ("   ")).2.2.2.1 (by decide) (by decide)

/-- Claim C4 amended: in phase 1 every successful create returns a task
whose created timestamp equals its updated timestamp, because a single
generated timestamp is assigned to both fields. In phase 2 the two columns
are initialized by two separate clock reads (one default factory per
column): created_at takes the first read and updated_at the second, so the
two are equal exactly when the reads coincide. -/
theorem C4_creation_timestamps :
    (∀ now title d s task s',
      Phase1.add_task now title d s = .ok (task, s') →
      task.created_at = task.updated_at)
    ∧ (∀ t1 t2 c u cp db,
      (Phase2.create_task t1 t2 c u cp db).1.created_at = t1
        ∧ (Phase2.create_task t1 t2 c u cp db).1.updated_at = t2) := by
  constructor
  · intro now title d s task s' h
    unfold Phase1.add_task at h
    cases hv : Phase1.validate_title title with
    | error e => rw [hv] at h; exact absurd h (by simp)
    | ok vt =>
      rw [hv] at h
      cases hd : Phase1.validate_description d with
      | error e => rw [hd] at h; exact absurd h (by simp)
      | ok vd =>
        rw [hd] at h
        simp only [Except.ok.injEq, Prod.mk.injEq] at h
        obtain ⟨ht, _⟩ := h
        rw [← ht]
  · intro t1 t2 c u cp db
    exact ⟨rfl, rfl⟩

/-- Witness for C4 at a concrete phase-1 creation. -/
theorem C4_creation_timestamps_witness :
    (⟨1, "a", "", false, 7, 7⟩ : Phase1.Task).created_at
      = (⟨1, "a", "", false, 7, 7⟩ : Phase1.Task).updated_at :=
  C4_creation_timestamps.1 7 ("a") ("") ⟨[], 1⟩ ⟨1, "a", "", false, 7, 7⟩
    ⟨[⟨1, "a", "", false, 7, 7⟩], 2⟩ rfl

theorem tagCreateNormalize_ok {n : String} (hl : n.length ≤ 50)
    (hs : pyStrip n ≠ "") :
    Phase2.tagCreateNormalize n = .ok (lowerStr (pyStrip n)) := by
  have hp : ¬ n.length < 1 := by
    have := length_pos_of_pyStrip_ne hs
    omega
  have hq : ¬ n.length > 50 := by omega
  simp only [Phase2.tagCreateNormalize, if_neg hp, if_neg hq, if_neg hs]

theorem find?_tags_append_new (u : Nat) (m : String) (g0 : Phase2.Tag)
    (l : List Phase2.Tag)
    (hf : l.find? (fun g => lowerStr g.name == lowerStr m && g.user_id == u)
        = none)
    (hname : g0.name = lowerStr m) (huser : g0.user_id = u) :
    (l ++ [g0]).find? (fun g => lowerStr g.name == lowerStr m && g.user_id == u)
      = some g0 := by
  rw [List.find?_append, hf]
  have hp : (lowerStr g0.name == lowerStr m && g0.user_id == u) = true := by
    rw [hname, huser, lowerStr_idem]
    simp
  simp [List.find?, hp]

/-- Claim C5 amended: tag resolution lower-cases the requested name, but
only the tag-creation endpoint also strips it. Two names with the same
lower-cased form resolve to the same tag record through the task path,
with the second resolution leaving the database unchanged; two valid names
with the same stripped lower-cased form resolve to the same record through
the tag-creation endpoint. The task path does not strip, so names that
differ only in surrounding whitespace create distinct records there. -/
theorem C5_tag_resolution :
    (∀ u n1 n2 c1 c2 db, lowerStr n1 = lowerStr n2 →
      Phase2.resolveTagTaskPath u n2 c2
          (Phase2.resolveTagTaskPath u n1 c1 db).2
        = Phase2.resolveTagTaskPath u n1 c1 db)
    ∧ (∀ u n1 n2 col1 col2 cp1 cp2 db,
      n1.length ≤ 50 → pyStrip n1 ≠ "" →
      n2.length ≤ 50 → pyStrip n2 ≠ "" →
      lowerStr (pyStrip n1) = lowerStr (pyStrip n2) →
      ∃ g db1,
        Phase2.createTagEndpoint u n1 col1 cp1 db = .ok (g, db1)
          ∧ Phase2.createTagEndpoint u n2 col2 cp2 db1 = .ok (g, db1)) := by
  constructor
  · intro u n1 n2 c1 c2 db h
    cases hf : db.tags.find?
        (fun g => lowerStr g.name == lowerStr n1 && g.user_id == u) with
    | some g =>
      rw [resolve_eq_found hf]
      refine resolve_eq_found ?_
      simp only [← h]
      exact hf
    | none =>
      rw [resolve_eq_missing hf]
      refine resolve_eq_found ?_
      simp only [← h]
      exact find?_tags_append_new u n1 ⟨db.next_tag_id, lowerStr n1, c1, u⟩
        db.tags hf rfl rfl
  · intro u n1 n2 col1 col2 cp1 cp2 db hl1 hs1 hl2 hs2 hS
    have hm1 := tagCreateNormalize_ok hl1 hs1
    have hm2 := tagCreateNormalize_ok hl2 hs2
    rw [← hS] at hm2
    cases hf : db.tags.find?
        (fun g => lowerStr g.name == lowerStr (lowerStr (pyStrip n1))
          && g.user_id == u) with
    | some g =>
      refine ⟨g, db, ?_, ?_⟩
      · unfold Phase2.createTagEndpoint
        rw [hm1]
        simp only [Except.map]
        rw [create_tag_eq_found hf]
      · unfold Phase2.createTagEndpoint
        rw [hm2]
        simp only [Except.map]
        rw [create_tag_eq_found hf]
    | none =>
      refine ⟨⟨db.next_tag_id, lowerStr (lowerStr (pyStrip n1)),
          (match col1 with | some c => c | none => cp1), u⟩,
        { db with
            tags := db.tags ++ [⟨db.next_tag_id, lowerStr (lowerStr (pyStrip n1)),
              (match col1 with | some c => c | none => cp1), u⟩],
            next_tag_id := db.next_tag_id + 1 }, ?_, ?_⟩
      · unfold Phase2.createTagEndpoint
        rw [hm1]
        simp only [Except.map]
        rw [create_tag_eq_missing hf]
      · unfold Phase2.createTagEndpoint
        rw [hm2]
        simp only [Except.map]
        rw [create_tag_eq_found (find?_tags_append_new u (lowerStr (pyStrip n1))
          _ db.tags hf rfl rfl)]

/-- Witness for C5: resolving Work and then WORK through the task path
returns the same tag record and leaves the database unchanged. -/
theorem C5_tag_resolution_witness :
    Phase2.resolveTagTaskPath 1 ("WORK") ("#EF4444")
        (Phase2.resolveTagTaskPath 1 ("Work") ("#3B82F6") db0).2
      = Phase2.resolveTagTaskPath 1 ("Work") ("#3B82F6") db0 :=
  C5_tag_resolution.1 1 ("Work") ("WORK") ("#3B82F6") ("#EF4444") db0
    (by decide)

theorem update_title_only_eq (now task_id : Nat) (s : Phase1.Repo)
    (t : Phase1.Task) (title : String)
    (hf : Phase1.find_by_id task_id s = some t)
    (h1 : pyStrip title ≠ "") (h2 : (pyStrip title).length ≤ 200) :
    Phase1.update_task now task_id (some title) none s
      = (.ok { t with title := pyStrip title, updated_at := now },
         ⟨Phase1.storeInsert task_id
            { t with title := pyStrip title, updated_at := now }
            (Phase1.storeInsert task_id { t with title := pyStrip title }
              s.storage),
          s.next_id⟩) := by
  unfold Phase1.update_task
  rw [if_neg (by simp), hf]
  simp only [validate_title_ok h1 h2, Except.map]

theorem complete_task_eq (now task_id : Nat) (s : Phase1.Repo)
    (t : Phase1.Task) (hf : Phase1.find_by_id task_id s = some t) :
    Phase1.complete_task now task_id s
      = (.ok { t with completed := true, updated_at := now },
         ⟨Phase1.storeInsert task_id
            { t with completed := true, updated_at := now } s.storage,
          s.next_id⟩) := by
  unfold Phase1.complete_task
  rw [hf]

/-- Claim C6 amended: a successful update that supplies only the title
changes only the title and the updated timestamp. In phase 1, with the
clock advanced past the previous updated timestamp, the result and the
stored record are the fetched task with the title replaced by the stripped
supplied title and updated_at set to the new instant: description,
completed, created_at and id are preserved, and updated_at strictly
increases. In phase 2 the service stores the supplied (already
schema-stripped) title verbatim, refreshes updated_at, and preserves
description, priority, due date, completed, created_at, the tag table and
the tag associations. The stored title is the stripped supplied title, so
it equals the supplied value exactly when that value carries no
surrounding whitespace. -/
theorem C6_update_title_frame :
    (∀ now task_id s (t : Phase1.Task) title,
      Phase1.find_by_id task_id s = some t →
      pyStrip title ≠ "" → (pyStrip title).length ≤ 200 →
      t.updated_at < now →
      (Phase1.update_task now task_id (some title) none s).1
          = .ok { t with title := pyStrip title, updated_at := now }
        ∧ Phase1.find_by_id task_id
            (Phase1.update_task now task_id (some title) none s).2
          = some { t with title := pyStrip title, updated_at := now }
        ∧ t.updated_at
            < ({ t with title := pyStrip title, updated_at := now } : Phase1.Task).updated_at)
    ∧ (∀ now task_id uid cp db (t : Phase2.Task) title,
      db.tasks.find? (fun x => x.id == task_id && x.user_id == uid)
          = some t →
      Phase2.update_task now task_id
          ⟨some title, none, none, none, none, none⟩ uid cp db
        = some ({ t with title := title, updated_at := now },
            { db with tasks := db.tasks.map (fun x =>
                if x.id == task_id
                then { t with title := title, updated_at := now } else x) })
        ∧ (db.tasks.map (fun x =>
              if x.id == task_id
              then { t with title := title, updated_at := now } else x)).find?
            (fun x => x.id == task_id && x.user_id == uid)
          = some { t with title := title, updated_at := now }) := by
  constructor
  · intro now task_id s t title hf h1 h2 hnow
    have hid := Phase1.find_by_id_id_eq hf
    have hupd := update_title_only_eq now task_id s t title hf h1 h2
    refine ⟨by rw [hupd], ?_, hnow⟩
    rw [hupd]
    exact Phase1.find?_storeInsert _ _ _ hid
  · intro now task_id uid cp db t title hf
    have hp : (t.id == task_id && t.user_id == uid) = true := by
      simpa using List.find?_some hf
    have hany := p2_any_of_find? hf
    constructor
    · unfold Phase2.update_task
      rw [hf]
    · exact p2_find_map_update task_id uid
        { t with title := title, updated_at := now } hp db.tasks hany

/-- Witness for C6 at concrete stores: a phase-1 update of the title to New
at instant 9, and the matching phase-2 service update. -/
theorem C6_update_title_frame_witness :
    (Phase1.update_task 9 1 (some ("New")) none repoC6).1
        = .ok ⟨1, "New", "d", false, 0, 9⟩
      ∧ Phase2.update_task 9 1 ⟨some ("New"), none, none, none, none, none⟩
          1 ("#EF4444") dbC2
        = some (⟨1, "New", "", false, "medium", none, 0, 9, 1⟩,
            ⟨[⟨1, "New", "", false, "medium", none, 0, 9, 1⟩], [], [], 2, 1⟩) := by
  constructor
  · exact (C6_update_title_frame.1 9 1 repoC6 ⟨1, "old", "d", false, 0, 0⟩
      ("New") rfl (by decide) (by decide) (by decide)).1
  · exact (C6_update_title_frame.2 9 1 1 ("#EF4444") dbC2
      ⟨1, "t", "", false, "medium", none, 0, 0, 1⟩ ("New") rfl).1

/-- Claim C7: completing a task twice leaves completed true; both calls
preserve id, title, description and created_at, each call sets updated_at
to its own clock instant (so the second call on the already-completed task
still refreshes it), and the stored record after the two calls is exactly
the fetched task with completed true and updated_at at the second instant. -/
theorem C7_complete_twice (t1 t2 task_id : Nat) (s : Phase1.Repo)
    (t : Phase1.Task) (hf : Phase1.find_by_id task_id s = some t) :
    (Phase1.complete_task t1 task_id s).1
        = .ok { t with completed := true, updated_at := t1 }
      ∧ (Phase1.complete_task t2 task_id
            (Phase1.complete_task t1 task_id s).2).1
        = .ok { t with completed := true, updated_at := t2 }
      ∧ Phase1.find_by_id task_id
          (Phase1.complete_task t2 task_id
            (Phase1.complete_task t1 task_id s).2).2
        = some { t with completed := true, updated_at := t2 } := by
  have hid := Phase1.find_by_id_id_eq hf
  have h1 := complete_task_eq t1 task_id s t hf
  have hf2 : Phase1.find_by_id task_id (Phase1.complete_task t1 task_id s).2
      = some { t with completed := true, updated_at := t1 } := by
    rw [h1]
    exact Phase1.find?_storeInsert _ _ _ hid
  have h2 := complete_task_eq t2 task_id _ _ hf2
  refine ⟨by rw [h1], ?_, ?_⟩
  · rw [h2]
  · rw [h2]
    exact Phase1.find?_storeInsert _ _ _ hid

/-- Witness for C7 at a concrete store: completing task 1 at instants 4 and
then 8. -/
theorem C7_complete_twice_witness :
    (Phase1.complete_task 4 1 repoC6).1
        = .ok ⟨1, "old", "d", true, 0, 4⟩
      ∧ (Phase1.complete_task 8 1 (Phase1.complete_task 4 1 repoC6).2).1
        = .ok ⟨1, "old", "d", true, 0, 8⟩
      ∧ Phase1.find_by_id 1
          (Phase1.complete_task 8 1 (Phase1.complete_task 4 1 repoC6).2).2
        = some ⟨1, "old", "d", true, 0, 8⟩ :=
  C7_complete_twice 4 8 1 repoC6 ⟨1, "old", "d", false, 0, 0⟩ rfl

/-- Claim C8: deleting an existing task returns the removed record and the
immediately following lookup fails with the not-found error carrying the
id; deleting an absent id fails with the not-found error and leaves the
store unchanged. -/
theorem C8_delete_then_get (task_id : Nat) (s : Phase1.Repo) :
    (∀ t, Phase1.find_by_id task_id s = some t →
      (Phase1.delete_task task_id s).1 = .ok t
        ∧ Phase1.get_task_by_id task_id (Phase1.delete_task task_id s).2
            = .error (.notFound task_id))
    ∧ (Phase1.find_by_id task_id s = none →
      Phase1.delete_task task_id s = (.error (.notFound task_id), s)) := by
  constructor
  · intro t hf
    have hdel : Phase1.delete_task task_id s
        = (.ok t, ⟨s.storage.filter (fun x => !(x.id == task_id)),
            s.next_id⟩) := by
      unfold Phase1.delete_task
      rw [hf]
    have hnone : Phase1.find_by_id task_id (Phase1.delete_task task_id s).2
        = none := by
      rw [hdel]
      exact Phase1.find?_filter_ne task_id s.storage
    refine ⟨by rw [hdel], ?_⟩
    unfold Phase1.get_task_by_id
    rw [hnone]
  · intro hf
    unfold Phase1.delete_task
    rw [hf]

/-- Witness for C8 at a concrete store: deleting task 1 returns it and the
following lookup fails with the not-found error; deleting absent id 9
fails and leaves the store unchanged. -/
theorem C8_delete_then_get_witness :
    ((Phase1.delete_task 1 repoC2).1 = .ok ⟨1, "t", "", false, 0, 0⟩
      ∧ Phase1.get_task_by_id 1 (Phase1.delete_task 1 repoC2).2
          = .error (.notFound 1))
    ∧ Phase1.delete_task 9 repoC2 = (.error (.notFound 9), repoC2) :=
  ⟨(C8_delete_then_get 1 repoC2).1 ⟨1, "t", "", false, 0, 0⟩ rfl,
   (C8_delete_then_get 9 repoC2).2 rfl⟩

/-- Claim C10: the phase-1 update mutates the stored record before all
validation completes. With an existing task, a valid new title and a
description longer than 1000 characters, update_task raises the description
ValidationError, yet the stored record already carries the stripped new
title while its description and updated_at are unchanged: the store is
changed by a failed update, because the repository hands out the stored
object itself. -/
theorem C10_nonatomic_update (now task_id : Nat) (s : Phase1.Repo)
    (t : Phase1.Task) (title d : String)
    (hf : Phase1.find_by_id task_id s = some t)
    (h1 : pyStrip title ≠ "") (h2 : (pyStrip title).length ≤ 200)
    (hd : d.length > 1000) :
    (Phase1.update_task now task_id (some title) (some d) s).1
        = .error (.validation ("Task description cannot exceed 1000 characters"))
      ∧ Phase1.find_by_id task_id
          (Phase1.update_task now task_id (some title) (some d) s).2
        = some { t with title := pyStrip title } := by
  have hid := Phase1.find_by_id_id_eq hf
  have hderr : Phase1.validate_description d
      = .error (.validation ("Task description cannot exceed 1000 characters")) := by
    have hgt : d.length > Phase1.MAX_DESCRIPTION_LENGTH := by
      simp only [Phase1.MAX_DESCRIPTION_LENGTH]
      omega
    simp only [Phase1.validate_description, if_pos hgt]
  have hupd : Phase1.update_task now task_id (some title) (some d) s
      = (.error (.validation ("Task description cannot exceed 1000 characters")),
         ⟨Phase1.storeInsert task_id { t with title := pyStrip title }
            s.storage, s.next_id⟩) := by
    unfold Phase1.update_task
    rw [if_neg (by simp), hf]
    simp only [validate_title_ok h1 h2, Except.map, hderr]
  refine ⟨by rw [hupd], ?_⟩
  rw [hupd]
  exact Phase1.find?_storeInsert _ _ _ hid

/-- Witness for C10 at a concrete store: the failed update left the new
title in the store while description and updated_at kept their old values. -/
theorem C10_nonatomic_update_witness :
    (Phase1.update_task 9 1 (some ("New")) (some longDesc) repoC10).1
        = .error (.validation ("Task description cannot exceed 1000 characters"))
      ∧ Phase1.find_by_id 1
          (Phase1.update_task 9 1 (some ("New")) (some longDesc) repoC10).2
        = some ⟨1, "New", "d0", false, 0, 0⟩ :=
  C10_nonatomic_update 9 1 repoC10 ⟨1, "old", "d0", false, 0, 0⟩ ("New")
    longDesc rfl (by decide) (by decide) (by decide)
